import Mathlib

set_option autoImplicit false

/-
Shallow embedding of the pizza-agent application
(src/200_application/src): the backend selector, the three backend
adapters, the request/response boundary and the health-check endpoint.

Python dicts returned by the adapters are embedded as association lists
from string keys to optional string values (a value of none embeds the
Python value None).  Calls into the external Azure AI service are
embedded as environment records of functions returning
Except String _ : an Except.error e embeds a raised exception whose
str(e) is e.
-/

/-- A Python dict with string keys and string-or-None values, as the
adapters return. -/
abbrev RespDict := List (String × Option String)

/-- Field access on an embedded dict: some v when the key is present
with value v, none when the key is absent. -/
def getField (d : RespDict) (k : String) : Option (Option String) :=
  List.lookup k d

/-- BackendType enum from config.py. -/
inductive BackendType where
  | AZURE_AI_AGENT
  | SEMANTIC_KERNEL
  | SEMANTIC_KERNEL_AGENT
  deriving DecidableEq, Repr

/-- The declared pydantic Field default of Settings.backend_type in
config.py (config.py line 28). -/
def Settings.backendTypeFieldDefault : BackendType := BackendType.AZURE_AI_AGENT

/-- Pydantic validation of a string into the BackendType enum; an
unknown value is a ValidationError, embedded as Except.error. -/
def parseBackendType (s : String) : Except String BackendType :=
  if s = "azure_ai_agent" then Except.ok BackendType.AZURE_AI_AGENT
  else if s = "semantic_kernel" then Except.ok BackendType.SEMANTIC_KERNEL
  else if s = "semantic_kernel_agent" then Except.ok BackendType.SEMANTIC_KERNEL_AGENT
  else Except.error "value is not a valid BackendType"

/-- backend_type of the module-level settings instance (config.py lines
46-52): os.getenv of BACKEND_TYPE with default
BackendType.SEMANTIC_KERNEL_AGENT, validated by pydantic.  The argument
is the value of the BACKEND_TYPE environment variable, none when
unset. -/
def settingsBackendType : Option String → Except String BackendType
  | none => Except.ok BackendType.SEMANTIC_KERNEL_AGENT
  | some s => parseBackendType s

/- ---------------------------------------------------------------
   PizzaAgent (backend/pizza_agent.py): the Azure AI Agent adapter.
   --------------------------------------------------------------- -/

/-- One message of a thread, as used by pizza_agent.py: its id and the
text content last_agent_msg.content[0].text.value. -/
structure Msg where
  id : String
  text : String
  deriving DecidableEq, Repr

/-- The result of project_client.agents.list_messages as consumed by
pizza_agent.py: only get_last_message_by_role(MessageRole.AGENT) is
used, so the page is embedded by that single optional message. -/
structure MessagesPage where
  lastAgentMsg : Option Msg
  deriving DecidableEq, Repr

/-- One agent definition as returned by list_agents or create_agent. -/
structure AgentInfo where
  id : String
  name : String
  deriving DecidableEq, Repr

/-- The external Azure AI service as seen through the five remote calls
made by pizza_agent.py.  Each call may raise, embedded as
Except.error str(e). -/
structure AgentEnv where
  listAgents : Except String (List AgentInfo)
  createAgent : Except String AgentInfo
  listMessages : String → Except String MessagesPage
  createThread : Except String String
  createMessage : String → String → String → Except String Unit
  createAndProcessRun : String → String → Except String String

/-- A trace entry: one remote call issued by PizzaAgent.processMessage
to the external service. -/
inductive ExtCall where
  | listMessages (threadId : String)
  | createThread
  | createMessage (threadId role content : String)
  | createAndProcessRun (threadId agentId : String)
  deriving DecidableEq, Repr

/-- Mutable instance state of a PizzaAgent object: self.agent (its id)
and self.thread (its id, none embeds Python None). -/
structure AgentState where
  agent : String
  thread : Option String
  deriving DecidableEq, Repr

/-- What one call of PizzaAgent.process_message produces: the returned
dict, the instance state afterwards, and the trace of remote calls
issued. -/
structure AgentOutcome where
  resp : RespDict
  state : AgentState
  calls : List ExtCall
  deriving DecidableEq, Repr

/-- PizzaAgent.process_message from the point where self.thread has
been set to the thread tid (pizza_agent.py lines 127-175): append the
user message, run the agent, list the messages and read the last agent
message; any raised exception is caught by the outer except, which
reports str(e) with thread_id = self.thread.id = tid. -/
def PizzaAgent.runThread (env : AgentEnv) (st : AgentState) (message : String)
    (tid : String) (calls0 : List ExtCall) : AgentOutcome :=
  match env.createMessage tid "user" message with
  | Except.error e =>
      { resp := [("status", some "error"), ("message", some e), ("thread_id", some tid)],
        state := { st with thread := some tid },
        calls := calls0 ++ [ExtCall.createMessage tid "user" message] }
  | Except.ok _ =>
    match env.createAndProcessRun tid st.agent with
    | Except.error e =>
        { resp := [("status", some "error"), ("message", some e), ("thread_id", some tid)],
          state := { st with thread := some tid },
          calls := calls0 ++ [ExtCall.createMessage tid "user" message,
                              ExtCall.createAndProcessRun tid st.agent] }
    | Except.ok _ =>
      match env.listMessages tid with
      | Except.error e =>
          { resp := [("status", some "error"), ("message", some e), ("thread_id", some tid)],
            state := { st with thread := some tid },
            calls := calls0 ++ [ExtCall.createMessage tid "user" message,
                                ExtCall.createAndProcessRun tid st.agent,
                                ExtCall.listMessages tid] }
      | Except.ok page =>
        match page.lastAgentMsg with
        | some m =>
            { resp := [("status", some "success"), ("message", some m.text),
                       ("message_id", some m.id), ("thread_id", some tid)],
              state := { st with thread := some tid },
              calls := calls0 ++ [ExtCall.createMessage tid "user" message,
                                  ExtCall.createAndProcessRun tid st.agent,
                                  ExtCall.listMessages tid] }
        | none =>
            { resp := [("status", some "error"),
                       ("message", some "No response received from agent"),
                       ("thread_id", some tid)],
              state := { st with thread := some tid },
              calls := calls0 ++ [ExtCall.createMessage tid "user" message,
                                  ExtCall.createAndProcessRun tid st.agent,
                                  ExtCall.listMessages tid] }

/-- PizzaAgent.process_message (pizza_agent.py lines 81-175).  With a
supplied thread_id, list_messages verifies the thread: on a raised
exception the inner except returns the dict
status error / message "Thread tid not found" / thread_id None without
any further remote call.  Without a thread_id, create_thread mints a
new thread; if create_thread raises, the outer except reports str(e)
with thread_id = getattr(self.thread, id, None), i.e. the prior
instance state. -/
def PizzaAgent.processMessage (env : AgentEnv) (st : AgentState) (message : String) :
    Option String → AgentOutcome
  | some tid =>
    match env.listMessages tid with
    | Except.error _ =>
        { resp := [("status", some "error"),
                   ("message", some ("Thread " ++ tid ++ " not found")),
                   ("thread_id", none)],
          state := st,
          calls := [ExtCall.listMessages tid] }
    | Except.ok _ => PizzaAgent.runThread env st message tid [ExtCall.listMessages tid]
  | none =>
    match env.createThread with
    | Except.error e =>
        { resp := [("status", some "error"), ("message", some e), ("thread_id", st.thread)],
          state := st,
          calls := [ExtCall.createThread] }
    | Except.ok tid => PizzaAgent.runThread env st message tid [ExtCall.createThread]

/-- PizzaAgent._initialize_agent (pizza_agent.py lines 43-79): list all
agents, pick the one named pizza-agent, create it when absent; a raised
exception is re-raised. -/
def PizzaAgent.initializeAgent (env : AgentEnv) : Except String AgentInfo :=
  match env.listAgents with
  | Except.error e => Except.error e
  | Except.ok l =>
    match l.find? (fun a => a.name == "pizza-agent") with
    | some a => Except.ok a
    | none => env.createAgent

/-- PizzaAgent.__init__ (pizza_agent.py lines 24-41): runs
_initialize_agent once, with self.thread = None.  The Nat argument
counts how often _initialize_agent has executed in this process; the
constructor increments it. -/
def PizzaAgent.mkAgent (env : AgentEnv) (initCount : Nat) : Nat × Except String AgentState :=
  (initCount + 1,
   (PizzaAgent.initializeAgent env).map (fun a => { agent := a.id, thread := none }))

/- ---------------------------------------------------------------
   PizzaAgentSK (backend/pizza_agent_sk.py): the Semantic Kernel
   AzureAIAgent adapter.
   --------------------------------------------------------------- -/

/-- The value returned by agent.get_response in pizza_agent_sk.py:
response.content.content and response.thread.id. -/
structure SKResponse where
  content : String
  threadId : String
  deriving DecidableEq, Repr

/-- The external service as seen through pizza_agent_sk.py: one remote
call get_response(messages=[message], thread=AzureAIAgentThread(tid)),
which may raise. -/
structure SKEnv where
  getResponse : String → Option String → Except String SKResponse

/-- PizzaAgentSK.process_message (pizza_agent_sk.py lines 75-114): on
success report the response content and response.thread.id; on a raised
exception report str(e) with thread_id equal to the supplied
thread_id argument. -/
def PizzaAgentSK.processMessage (env : SKEnv) (message : String)
    (threadId : Option String) : RespDict :=
  match env.getResponse message threadId with
  | Except.ok r =>
      [("status", some "success"), ("message", some r.content),
       ("thread_id", some r.threadId)]
  | Except.error e =>
      [("status", some "error"), ("message", some e), ("thread_id", threadId)]

/- ---------------------------------------------------------------
   PizzaChatSK (backend/pizza_chat_sk.py): the stateless Semantic
   Kernel chat adapter.
   --------------------------------------------------------------- -/

/-- The system prompt set in PizzaChatSK.__init__. -/
def PizzaChatSK.systemPrompt : String :=
  "You are a helpful assistant which answers questions on pizza dough recipes and methods.\nYou politely refuse to talk about any other topic.\nBase your answers on established pizza-making techniques and best practices."

/-- The external service as seen through pizza_chat_sk.py: one remote
completion call on a two-message history, which may raise. -/
structure ChatEnv where
  getChatMessageContent : List (String × String) → Except String String

/-- PizzaChatSK.process_message (pizza_chat_sk.py lines 36-97): build a
fresh history of the system prompt plus the user message, call the
completion once; both branches return the input conversation_id under
the key conversation_id, and no message_id key exists. -/
def PizzaChatSK.processMessage (env : ChatEnv) (message : String)
    (conversationId : Option String) : RespDict :=
  match env.getChatMessageContent
      [("system", PizzaChatSK.systemPrompt), ("user", message)] with
  | Except.ok content =>
      [("status", some "success"), ("message", some content),
       ("conversation_id", conversationId)]
  | Except.error e =>
      [("status", some "error"), ("message", some e),
       ("conversation_id", conversationId)]

/- ---------------------------------------------------------------
   PizzaService (service/pizza_service.py): backend selection and
   dispatch.
   --------------------------------------------------------------- -/

/-- Which backend class PizzaService.__init__ instantiates
(pizza_service.py lines 18-28): semantic_kernel selects PizzaChatSK,
semantic_kernel_agent selects PizzaAgentSK, the else branch defaults to
PizzaAgent. -/
inductive AdapterKind where
  | pizzaAgent
  | pizzaAgentSK
  | pizzaChatSK
  deriving DecidableEq, Repr

/-- The selection performed by PizzaService.__init__. -/
def PizzaService.selectAdapter : BackendType → AdapterKind
  | BackendType.SEMANTIC_KERNEL => AdapterKind.pizzaChatSK
  | BackendType.SEMANTIC_KERNEL_AGENT => AdapterKind.pizzaAgentSK
  | BackendType.AZURE_AI_AGENT => AdapterKind.pizzaAgent

/-- The thread reference actually passed to the selected adapter
(pizza_service.py lines 42-44): thread_id if use_thread else None,
where use_thread is settings.backend_type != BackendType.SEMANTIC_KERNEL. -/
def PizzaService.forwardedThreadId (bt : BackendType) (threadId : Option String) :
    Option String :=
  if bt ≠ BackendType.SEMANTIC_KERNEL then threadId else none

/-- The collaborators a constructed PizzaService holds: the environment
of each possible adapter, and the PizzaAgent instance state when the
Azure AI Agent backend is active. -/
structure Backends where
  agentEnv : AgentEnv
  agentState : AgentState
  skEnv : SKEnv
  chatEnv : ChatEnv

/-- PizzaService.process_message (pizza_service.py lines 30-44):
compute the forwarded thread reference, then delegate to the adapter
selected at construction. -/
def PizzaService.processMessage (bt : BackendType) (b : Backends) (message : String)
    (threadId : Option String) : RespDict :=
  let fwd := PizzaService.forwardedThreadId bt threadId
  match PizzaService.selectAdapter bt with
  | AdapterKind.pizzaChatSK => PizzaChatSK.processMessage b.chatEnv message fwd
  | AdapterKind.pizzaAgentSK => PizzaAgentSK.processMessage b.skEnv message fwd
  | AdapterKind.pizzaAgent =>
      (PizzaAgent.processMessage b.agentEnv b.agentState message fwd).resp

/-- PizzaService.__init__ (pizza_service.py lines 18-28): construct the
selected backend.  For the Azure AI Agent backend this constructs a
PizzaAgent, running _initialize_agent (and incrementing the process-wide
execution count); a raised initialization error propagates. -/
def PizzaService.mkService (bt : BackendType) (env : AgentEnv) (sk : SKEnv)
    (chat : ChatEnv) (initCount : Nat) : Nat × Except String Backends :=
  match PizzaService.selectAdapter bt with
  | AdapterKind.pizzaAgent =>
      match PizzaAgent.mkAgent env initCount with
      | (n, Except.error e) => (n, Except.error e)
      | (n, Except.ok st) =>
          (n, Except.ok { agentEnv := env, agentState := st, skEnv := sk, chatEnv := chat })
  | _ =>
      (initCount,
       Except.ok { agentEnv := env, agentState := { agent := "", thread := none },
                   skEnv := sk, chatEnv := chat })

/- ---------------------------------------------------------------
   Request/response boundary (api/router.py).
   --------------------------------------------------------------- -/

/-- PizzaRequest (api/router.py lines 15-22). -/
structure PizzaRequest where
  message : String
  thread_id : Option String
  deriving DecidableEq, Repr

/-- PizzaResponse (api/router.py lines 24-33). -/
structure PizzaResponse where
  status : String
  message : String
  message_id : Option String
  thread_id : Option String
  deriving DecidableEq, Repr

/-- The declared field names of PizzaResponse. -/
def PizzaResponse.fieldNames : List String :=
  ["status", "message", "message_id", "thread_id"]

/-- The pydantic-dataclass constructor call PizzaResponse(**result)
(api/router.py line 83), modelled from pydantic keyword-argument
semantics: a key outside the declared fields raises an unexpected
keyword argument error; status and message are required non-None
strings; message_id and thread_id default to None. -/
def PizzaResponse.ofDict (d : RespDict) : Except String PizzaResponse :=
  if d.any (fun kv => !(PizzaResponse.fieldNames.contains kv.1)) then
    Except.error "unexpected keyword argument"
  else
    match List.lookup "status" d, List.lookup "message" d with
    | some (some st), some (some msg) =>
        Except.ok { status := st, message := msg,
                    message_id := (List.lookup "message_id" d).join,
                    thread_id := (List.lookup "thread_id" d).join }
    | _, _ => Except.error "missing or invalid required argument"

/-- process_pizza_request (api/router.py lines 61-83): construct a
fresh PizzaService, delegate, and build PizzaResponse(**result).  An
exception escaping the handler (initialization failure or constructor
failure) is the Except.error case, which the transport reports as an
unhandled 500. -/
def processPizzaRequest (bt : BackendType) (env : AgentEnv) (sk : SKEnv)
    (chat : ChatEnv) (initCount : Nat) (req : PizzaRequest) :
    Nat × Except String PizzaResponse :=
  match PizzaService.mkService bt env sk chat initCount with
  | (n, Except.error e) => (n, Except.error e)
  | (n, Except.ok b) =>
      (n, PizzaResponse.ofDict (PizzaService.processMessage bt b req.message req.thread_id))

/- ---------------------------------------------------------------
   Health check (infra/router.py).
   --------------------------------------------------------------- -/

/-- Result of the health_check endpoint: the healthy payload, or an
HTTPException 401 with the given detail. -/
inductive HealthResult where
  | healthy
  | unauthorized (detail : String)
  deriving DecidableEq, Repr

/-- Python str.startswith. -/
def pyStartsWith (s p : String) : Bool :=
  List.isPrefixOf p.data s.data

/-- Python str.split(sep) for a non-empty separator, on character
lists; the fuel argument bounds the recursion by the input length. -/
def pySplitAux (sep : List Char) : Nat → List Char → List Char → List (List Char)
  | _, acc, [] => [acc.reverse]
  | 0, acc, rest => [acc.reverse ++ rest]
  | fuel + 1, acc, c :: rest =>
    if List.isPrefixOf sep (c :: rest) then
      acc.reverse :: pySplitAux sep fuel [] (List.drop (sep.length - 1) rest)
    else
      pySplitAux sep fuel (c :: acc) rest

/-- Python str.split(sep) for a non-empty separator sep. -/
def pySplit (s sep : String) : List String :=
  if sep.data = [] then [s]
  else (pySplitAux sep.data s.data.length [] s.data).map String.mk

/-- The hardcoded default of settings.health_check_token
(config.py lines 22-25 and 48). -/
def healthCheckToken : String := "vh7EBWcZq4kP9XmN2sYgT8JH3aRd6MuQ"

/-- health_check (infra/router.py lines 11-44): reject a missing or
empty header and a header not starting with the string Bearer-space;
otherwise compare authorization.split("Bearer ")[1] against the
configured token. -/
def health_check (authorization : Option String) (token : String) : HealthResult :=
  match authorization with
  | none => HealthResult.unauthorized "Missing Bearer token"
  | some auth =>
    if auth = "" then HealthResult.unauthorized "Missing Bearer token"
    else if !(pyStartsWith auth "Bearer ") then
      HealthResult.unauthorized "Missing Bearer token"
    else if (pySplit auth "Bearer ").getD 1 "" ≠ token then
      HealthResult.unauthorized "Invalid token"
    else HealthResult.healthy

/- Concrete environments used as witnesses and counterexamples. -/

/-- An environment where every remote call succeeds and the thread
holds one agent message. -/
def envOkMsg : AgentEnv :=
  { listAgents := Except.ok [{ id := "agent_1", name := "pizza-agent" }],
    createAgent := Except.ok { id := "agent_2", name := "pizza-agent" },
    listMessages := fun _ => Except.ok { lastAgentMsg := some { id := "msg_1", text := "Use 00 flour." } },
    createThread := Except.ok "thread_new",
    createMessage := fun _ _ _ => Except.ok (),
    createAndProcessRun := fun _ _ => Except.ok "run_1" }

/-- An environment where list_messages raises for every thread, i.e. no
supplied thread reference resolves. -/
def envThreadMissing : AgentEnv :=
  { envOkMsg with
    listMessages := fun t => Except.error ("No thread found with id " ++ t) }

/-- An environment where every remote call succeeds but the run
produces no agent message. -/
def envNoAgentMsg : AgentEnv :=
  { envOkMsg with listMessages := fun _ => Except.ok { lastAgentMsg := none } }

/-- A PizzaAgent instance state as constructed by __init__ against
envOkMsg. -/
def st0 : AgentState := { agent := "agent_1", thread := none }

/-- An SK environment whose get_response raises whenever a thread
reference is supplied and succeeds otherwise. -/
def skEnvBadThread : SKEnv :=
  { getResponse := fun _ tid =>
      match tid with
      | some t => Except.error ("Resource not found: thread " ++ t)
      | none => Except.ok { content := "Use 00 flour.", threadId := "thread_sk" } }

/-- An SK environment where get_response always succeeds. -/
def skEnvOk : SKEnv :=
  { getResponse := fun _ _ =>
      Except.ok { content := "Use 00 flour.", threadId := "thread_sk" } }

/-- A chat environment whose completion call succeeds. -/
def chatEnvOk : ChatEnv :=
  { getChatMessageContent := fun _ => Except.ok "Use 00 flour." }

/-- A fully succeeding set of service collaborators. -/
def backendsOk : Backends :=
  { agentEnv := envOkMsg, agentState := st0, skEnv := skEnvOk, chatEnv := chatEnvOk }

/-- The reply-text field of the concrete response shape: in the code
the reply is carried by the dict key message (Scenario A maps the
agent reply onto it). -/
def replyTextField (d : RespDict) : Option String :=
  (List.lookup "message" d).join

/-- The errorDetail field of the abstract ConversationResult read off
the concrete response shape: the concrete dicts never carry an
errorDetail key. -/
def errorDetailField (d : RespDict) : Option String :=
  (List.lookup "errorDetail" d).join

/- ---------------------------------------------------------------
   Helper lemmas shared by the claim theorems.
   --------------------------------------------------------------- -/

/-- Every outcome of PizzaAgent.runThread reports thread_id = the
thread it ran on. -/
theorem runThread_threadId_field (env : AgentEnv) (st : AgentState) (m tid : String)
    (c : List ExtCall) :
    getField (PizzaAgent.runThread env st m tid c).resp "thread_id" = some (some tid) := by
  unfold PizzaAgent.runThread
  cases env.createMessage tid "user" m with
  | error e => rfl
  | ok u =>
    cases env.createAndProcessRun tid st.agent with
    | error e => rfl
    | ok r =>
      cases env.listMessages tid with
      | error e => rfl
      | ok page =>
        obtain ⟨lam⟩ := page
        cases lam with
        | none => rfl
        | some mm => rfl

/-- Every outcome of PizzaAgent.runThread leaves the agent handle of
the instance state unchanged. -/
theorem runThread_state_agent (env : AgentEnv) (st : AgentState) (m tid : String)
    (c : List ExtCall) :
    (PizzaAgent.runThread env st m tid c).state.agent = st.agent := by
  unfold PizzaAgent.runThread
  cases env.createMessage tid "user" m with
  | error e => rfl
  | ok u =>
    cases env.createAndProcessRun tid st.agent with
    | error e => rfl
    | ok r =>
      cases env.listMessages tid with
      | error e => rfl
      | ok page =>
        obtain ⟨lam⟩ := page
        cases lam with
        | none => rfl
        | some mm => rfl

/-- Every outcome of PizzaAgent.runThread carries a status of success
or error, a present message text, and no errorDetail key. -/
theorem runThread_resp_shape (env : AgentEnv) (st : AgentState) (m tid : String)
    (c : List ExtCall) :
    (getField (PizzaAgent.runThread env st m tid c).resp "status" = some (some "success")
      ∨ getField (PizzaAgent.runThread env st m tid c).resp "status" = some (some "error"))
    ∧ (replyTextField (PizzaAgent.runThread env st m tid c).resp).isSome = true
    ∧ errorDetailField (PizzaAgent.runThread env st m tid c).resp = none := by
  unfold PizzaAgent.runThread
  cases env.createMessage tid "user" m with
  | error e => exact ⟨Or.inr rfl, rfl, rfl⟩
  | ok u =>
    cases env.createAndProcessRun tid st.agent with
    | error e => exact ⟨Or.inr rfl, rfl, rfl⟩
    | ok r =>
      cases env.listMessages tid with
      | error e => exact ⟨Or.inr rfl, rfl, rfl⟩
      | ok page =>
        obtain ⟨lam⟩ := page
        cases lam with
        | none => exact ⟨Or.inr rfl, rfl, rfl⟩
        | some mm => exact ⟨Or.inl rfl, rfl, rfl⟩

/- ---------------------------------------------------------------
   Claim theorems.
   --------------------------------------------------------------- -/

/-- Claim C1, counterexample: for the Alternate-SDK adapter, a request
whose thread reference does not resolve (get_response raises) yields a
Failure whose thread_id field echoes the supplied reference instead of
being null, refuting the claim that both adapters return an absent
conversationRef. -/
theorem C1_counterexample :
    getField (PizzaAgentSK.processMessage skEnvBadThread "hi" (some "does-not-exist"))
      "status" = some (some "error")
    ∧ getField (PizzaAgentSK.processMessage skEnvBadThread "hi" (some "does-not-exist"))
      "thread_id" = some (some "does-not-exist")
    ∧ getField (PizzaAgentSK.processMessage skEnvBadThread "hi" (some "does-not-exist"))
      "thread_id" ≠ some none := by decide

/-- Claim C1, amended: when the supplied thread reference fails to
resolve, the Agent-Client adapter returns a Failure whose message is
exactly Thread-ref-not-found, whose thread_id is null, and it issues no
create_thread call (no fallback session); the Alternate-SDK adapter
returns a Failure carrying the raised error text whose thread_id echoes
the supplied reference. -/
theorem C1_amended (envA : AgentEnv) (envS : SKEnv) (st : AgentState)
    (m tid eA eS : String)
    (hA : envA.listMessages tid = Except.error eA)
    (hS : envS.getResponse m (some tid) = Except.error eS) :
    getField (PizzaAgent.processMessage envA st m (some tid)).resp "status"
      = some (some "error")
    ∧ getField (PizzaAgent.processMessage envA st m (some tid)).resp "message"
      = some (some ("Thread " ++ tid ++ " not found"))
    ∧ getField (PizzaAgent.processMessage envA st m (some tid)).resp "thread_id" = some none
    ∧ ExtCall.createThread ∉ (PizzaAgent.processMessage envA st m (some tid)).calls
    ∧ getField (PizzaAgentSK.processMessage envS m (some tid)) "status" = some (some "error")
    ∧ getField (PizzaAgentSK.processMessage envS m (some tid)) "message" = some (some eS)
    ∧ getField (PizzaAgentSK.processMessage envS m (some tid)) "thread_id"
      = some (some tid) := by
  have hrw : PizzaAgent.processMessage envA st m (some tid)
      = { resp := [("status", some "error"),
                   ("message", some ("Thread " ++ tid ++ " not found")),
                   ("thread_id", none)],
          state := st, calls := [ExtCall.listMessages tid] } := by
    simp only [PizzaAgent.processMessage, hA]
  have hrwS : PizzaAgentSK.processMessage envS m (some tid)
      = [("status", some "error"), ("message", some eS), ("thread_id", some tid)] := by
    simp only [PizzaAgentSK.processMessage, hS]
  rw [hrw, hrwS]
  refine ⟨rfl, rfl, rfl, ?_, rfl, rfl, rfl⟩
  simp

/-- Claim C1, witness: the amended theorem applied to concrete
environments in which the thread does-not-exist fails to resolve. -/
theorem C1_amended_witness :
    envThreadMissing.listMessages "does-not-exist"
      = Except.error ("No thread found with id " ++ "does-not-exist")
    ∧ skEnvBadThread.getResponse "hi" (some "does-not-exist")
      = Except.error ("Resource not found: thread " ++ "does-not-exist")
    ∧ (getField (PizzaAgent.processMessage envThreadMissing st0 "hi"
          (some "does-not-exist")).resp "status" = some (some "error")
       ∧ getField (PizzaAgent.processMessage envThreadMissing st0 "hi"
          (some "does-not-exist")).resp "message"
         = some (some ("Thread " ++ "does-not-exist" ++ " not found"))
       ∧ getField (PizzaAgent.processMessage envThreadMissing st0 "hi"
          (some "does-not-exist")).resp "thread_id" = some none
       ∧ ExtCall.createThread ∉ (PizzaAgent.processMessage envThreadMissing st0 "hi"
          (some "does-not-exist")).calls
       ∧ getField (PizzaAgentSK.processMessage skEnvBadThread "hi"
          (some "does-not-exist")) "status" = some (some "error")
       ∧ getField (PizzaAgentSK.processMessage skEnvBadThread "hi"
          (some "does-not-exist")) "message"
         = some (some ("Resource not found: thread " ++ "does-not-exist"))
       ∧ getField (PizzaAgentSK.processMessage skEnvBadThread "hi"
          (some "does-not-exist")) "thread_id" = some (some "does-not-exist")) :=
  ⟨rfl, rfl,
   C1_amended envThreadMissing skEnvBadThread st0 "hi" "does-not-exist" _ _ rfl rfl⟩

/-- Claim C2: with the Stateless-Chat backend selected, the dict the
adapter returns carries the key conversation_id, which the boundary
constructor PizzaResponse rejects as an unexpected keyword argument, so
the handler raises and the caller sees a transport-level fault — the
code violates the claim that every adapter dict is consumable by the
boundary. -/
theorem C2_failing_eval :
    getField (PizzaService.processMessage BackendType.SEMANTIC_KERNEL backendsOk "hi" none)
      "status" = some (some "success")
    ∧ getField (PizzaService.processMessage BackendType.SEMANTIC_KERNEL backendsOk "hi" none)
      "conversation_id" = some none
    ∧ PizzaResponse.ofDict (PizzaService.processMessage BackendType.SEMANTIC_KERNEL
        backendsOk "hi" none) = Except.error "unexpected keyword argument" :=
  ⟨rfl, rfl, rfl⟩

/-- Claim C3: the Conversation Service invokes the Stateless-Chat
adapter with a null thread reference whatever the request carried,
while the two continuity-supporting adapters receive the caller
reference unchanged. -/
theorem C3_ref_suppression (b : Backends) (m : String) (t : Option String) :
    PizzaService.processMessage BackendType.SEMANTIC_KERNEL b m t
      = PizzaChatSK.processMessage b.chatEnv m none
    ∧ PizzaService.processMessage BackendType.SEMANTIC_KERNEL_AGENT b m t
      = PizzaAgentSK.processMessage b.skEnv m t
    ∧ PizzaService.processMessage BackendType.AZURE_AI_AGENT b m t
      = (PizzaAgent.processMessage b.agentEnv b.agentState m t).resp :=
  ⟨rfl, rfl, rfl⟩

/-- Every outcome of PizzaAgent.processMessage carries a status of
success or error, a present message text, and no errorDetail key. -/
theorem processMessage_resp_shape (env : AgentEnv) (st : AgentState) (m : String)
    (tid : Option String) :
    (getField (PizzaAgent.processMessage env st m tid).resp "status" = some (some "success")
      ∨ getField (PizzaAgent.processMessage env st m tid).resp "status" = some (some "error"))
    ∧ (replyTextField (PizzaAgent.processMessage env st m tid).resp).isSome = true
    ∧ errorDetailField (PizzaAgent.processMessage env st m tid).resp = none := by
  cases tid with
  | some t =>
    cases h : env.listMessages t with
    | error e =>
      simp only [PizzaAgent.processMessage, h]
      exact ⟨Or.inr rfl, rfl, rfl⟩
    | ok page =>
      simp only [PizzaAgent.processMessage, h]
      exact runThread_resp_shape env st m t _
  | none =>
    cases h : env.createThread with
    | error e =>
      simp only [PizzaAgent.processMessage, h]
      exact ⟨Or.inr rfl, rfl, rfl⟩
    | ok t =>
      simp only [PizzaAgent.processMessage, h]
      exact runThread_resp_shape env st m t _

/-- Claim C4, counterexample: a Failure result of the Agent-Client
adapter (here: unresolvable thread) has the reply-text field populated
with the error text and carries no errorDetail field, refuting the
claim that every Failure has a non-empty errorDetail and no reply
text carried in distinguishable fields. -/
theorem C4_counterexample :
    getField (PizzaAgent.processMessage envThreadMissing st0 "hi" (some "t42")).resp "status"
      = some (some "error")
    ∧ replyTextField (PizzaAgent.processMessage envThreadMissing st0 "hi" (some "t42")).resp
      = some "Thread t42 not found"
    ∧ replyTextField (PizzaAgent.processMessage envThreadMissing st0 "hi" (some "t42")).resp
      ≠ none
    ∧ errorDetailField (PizzaAgent.processMessage envThreadMissing st0 "hi" (some "t42")).resp
      = none := by decide

/-- Claim C4, amended: every result of every adapter carries a status
field that is exactly success or error and a present message text; the
message field carries the reply on success and the error description on
failure, so the two roles are distinguished solely by status — there is
no separate errorDetail field (it is always absent). -/
theorem C4_amended (envA : AgentEnv) (envS : SKEnv) (envC : ChatEnv) (st : AgentState)
    (m : String) (tid cid : Option String) :
    ((getField (PizzaAgent.processMessage envA st m tid).resp "status" = some (some "success")
       ∨ getField (PizzaAgent.processMessage envA st m tid).resp "status" = some (some "error"))
     ∧ (replyTextField (PizzaAgent.processMessage envA st m tid).resp).isSome = true
     ∧ errorDetailField (PizzaAgent.processMessage envA st m tid).resp = none)
    ∧ ((getField (PizzaAgentSK.processMessage envS m tid) "status" = some (some "success")
       ∨ getField (PizzaAgentSK.processMessage envS m tid) "status" = some (some "error"))
     ∧ (replyTextField (PizzaAgentSK.processMessage envS m tid)).isSome = true
     ∧ errorDetailField (PizzaAgentSK.processMessage envS m tid) = none)
    ∧ ((getField (PizzaChatSK.processMessage envC m cid) "status" = some (some "success")
       ∨ getField (PizzaChatSK.processMessage envC m cid) "status" = some (some "error"))
     ∧ (replyTextField (PizzaChatSK.processMessage envC m cid)).isSome = true
     ∧ errorDetailField (PizzaChatSK.processMessage envC m cid) = none) := by
  refine ⟨processMessage_resp_shape envA st m tid, ?_, ?_⟩
  · unfold PizzaAgentSK.processMessage
    cases envS.getResponse m tid with
    | ok r => exact ⟨Or.inl rfl, rfl, rfl⟩
    | error e => exact ⟨Or.inr rfl, rfl, rfl⟩
  · unfold PizzaChatSK.processMessage
    cases envC.getChatMessageContent [("system", PizzaChatSK.systemPrompt), ("user", m)] with
    | ok c => exact ⟨Or.inl rfl, rfl, rfl⟩
    | error e => exact ⟨Or.inr rfl, rfl, rfl⟩

/-- Claim C5: the health check is not a bit-for-bit exact match.  A
header consisting of the exact bearer prefix, the configured token and
a trailing second Bearer-prefix is accepted as healthy although it is
not the exact string Bearer-space-token, because
authorization.split of the Bearer prefix at index 1 recovers the
configured token from it; exact match, missing header, malformed
header and wrong token behave as specified. -/
theorem C5_health_check_bug :
    health_check (some ("Bearer " ++ healthCheckToken ++ "Bearer ")) healthCheckToken
      = HealthResult.healthy
    ∧ ("Bearer " ++ healthCheckToken ++ "Bearer ") ≠ ("Bearer " ++ healthCheckToken)
    ∧ health_check (some ("Bearer " ++ healthCheckToken)) healthCheckToken
      = HealthResult.healthy
    ∧ health_check none healthCheckToken = HealthResult.unauthorized "Missing Bearer token"
    ∧ health_check (some "") healthCheckToken
      = HealthResult.unauthorized "Missing Bearer token"
    ∧ health_check (some "Basic abc") healthCheckToken
      = HealthResult.unauthorized "Missing Bearer token"
    ∧ health_check (some "Bearer wrong-token") healthCheckToken
      = HealthResult.unauthorized "Invalid token" := by decide

/-- Claim C6, counterexample: when the run completes without an agent
message the failure message of the Agent-Client adapter is the
capitalized string No-response-received-from-agent, not the lowercase
message the claim states. -/
theorem C6_counterexample :
    getField (PizzaAgent.processMessage envNoAgentMsg st0 "hi" none).resp "status"
      = some (some "error")
    ∧ getField (PizzaAgent.processMessage envNoAgentMsg st0 "hi" none).resp "message"
      = some (some "No response received from agent")
    ∧ getField (PizzaAgent.processMessage envNoAgentMsg st0 "hi" none).resp "message"
      ≠ some (some "no response received from agent") := by decide

/-- Claim C6, amended: whenever the remote run completes but no agent
message is found, the Agent-Client adapter returns a Failure whose
message is exactly No-response-received-from-agent (capital N) and
whose thread_id is still the resolved or newly created session
reference. -/
theorem C6_amended (env : AgentEnv) (st : AgentState) (m tid runId : String)
    (hmsg : env.createMessage tid "user" m = Except.ok ())
    (hrun : env.createAndProcessRun tid st.agent = Except.ok runId)
    (hlist : env.listMessages tid = Except.ok { lastAgentMsg := none }) :
    (getField (PizzaAgent.processMessage env st m (some tid)).resp "status"
       = some (some "error")
     ∧ getField (PizzaAgent.processMessage env st m (some tid)).resp "message"
       = some (some "No response received from agent")
     ∧ getField (PizzaAgent.processMessage env st m (some tid)).resp "thread_id"
       = some (some tid))
    ∧ (env.createThread = Except.ok tid →
       (getField (PizzaAgent.processMessage env st m none).resp "status"
          = some (some "error")
        ∧ getField (PizzaAgent.processMessage env st m none).resp "message"
          = some (some "No response received from agent")
        ∧ getField (PizzaAgent.processMessage env st m none).resp "thread_id"
          = some (some tid))) := by
  have hrt : ∀ c : List ExtCall, PizzaAgent.runThread env st m tid c
      = { resp := [("status", some "error"),
                   ("message", some "No response received from agent"),
                   ("thread_id", some tid)],
          state := { st with thread := some tid },
          calls := c ++ [ExtCall.createMessage tid "user" m,
                         ExtCall.createAndProcessRun tid st.agent,
                         ExtCall.listMessages tid] } := by
    intro c
    unfold PizzaAgent.runThread
    rw [hmsg, hrun, hlist]
  constructor
  · simp only [PizzaAgent.processMessage, hlist, hrt]
    exact ⟨rfl, rfl, rfl⟩
  · intro hct
    simp only [PizzaAgent.processMessage, hct, hrt]
    exact ⟨rfl, rfl, rfl⟩

/-- Claim C6, witness: the amended theorem applied to a concrete
environment whose run completes with no agent message, on both the
minted-session path and the supplied-reference path. -/
theorem C6_amended_witness :
    envNoAgentMsg.createMessage "thread_new" "user" "hi" = Except.ok ()
    ∧ envNoAgentMsg.createAndProcessRun "thread_new" st0.agent = Except.ok "run_1"
    ∧ envNoAgentMsg.listMessages "thread_new" = Except.ok { lastAgentMsg := none }
    ∧ envNoAgentMsg.createThread = Except.ok "thread_new"
    ∧ getField (PizzaAgent.processMessage envNoAgentMsg st0 "hi" (some "thread_new")).resp
        "message" = some (some "No response received from agent")
    ∧ getField (PizzaAgent.processMessage envNoAgentMsg st0 "hi" none).resp "message"
      = some (some "No response received from agent")
    ∧ getField (PizzaAgent.processMessage envNoAgentMsg st0 "hi" none).resp "thread_id"
      = some (some "thread_new") :=
  ⟨rfl, rfl, rfl, rfl,
   (C6_amended envNoAgentMsg st0 "hi" "thread_new" "run_1" rfl rfl rfl).1.2.1,
   ((C6_amended envNoAgentMsg st0 "hi" "thread_new" "run_1" rfl rfl rfl).2 rfl).2.1,
   ((C6_amended envNoAgentMsg st0 "hi" "thread_new" "run_1" rfl rfl rfl).2 rfl).2.2⟩

/-- Claim C7: when no thread reference is supplied and the external
service mints the session r, the result of the Agent-Client adapter
carries thread_id = r whatever happens downstream; in particular the
returned reference is never null and (for a non-empty minted reference)
never empty. -/
theorem C7_minted_ref (env : AgentEnv) (st : AgentState) (m r : String)
    (hct : env.createThread = Except.ok r) (hr : r ≠ "") :
    getField (PizzaAgent.processMessage env st m none).resp "thread_id" = some (some r)
    ∧ getField (PizzaAgent.processMessage env st m none).resp "thread_id" ≠ some none
    ∧ getField (PizzaAgent.processMessage env st m none).resp "thread_id" ≠ some (some "") := by
  have h1 : getField (PizzaAgent.processMessage env st m none).resp "thread_id"
      = some (some r) := by
    simp only [PizzaAgent.processMessage, hct]
    exact runThread_threadId_field env st m r _
  refine ⟨h1, ?_, ?_⟩
  · rw [h1]
    simp
  · rw [h1]
    simp [hr]

/-- Claim C7, witness: the theorem applied to a concrete environment
minting the session thread_new. -/
theorem C7_minted_ref_witness :
    envOkMsg.createThread = Except.ok "thread_new"
    ∧ "thread_new" ≠ ""
    ∧ (getField (PizzaAgent.processMessage envOkMsg st0 "hi" none).resp "thread_id"
        = some (some "thread_new")
       ∧ getField (PizzaAgent.processMessage envOkMsg st0 "hi" none).resp "thread_id"
        ≠ some none
       ∧ getField (PizzaAgent.processMessage envOkMsg st0 "hi" none).resp "thread_id"
        ≠ some (some "")) :=
  ⟨rfl, by decide, C7_minted_ref envOkMsg st0 "hi" "thread_new" rfl (by decide)⟩

/-- Claim C8, counterexample: handling a request re-constructs the
backend adapter and re-runs its initialization: after two requests
under the Azure AI Agent backend the locate-or-create initialization
has executed twice, refuting at-most-once per process lifetime. -/
theorem C8_counterexample :
    (processPizzaRequest BackendType.AZURE_AI_AGENT envOkMsg skEnvOk chatEnvOk
        (processPizzaRequest BackendType.AZURE_AI_AGENT envOkMsg skEnvOk chatEnvOk 0
            { message := "hi", thread_id := none }).1
        { message := "hi", thread_id := none }).1 = 2
    ∧ ¬ (processPizzaRequest BackendType.AZURE_AI_AGENT envOkMsg skEnvOk chatEnvOk
        (processPizzaRequest BackendType.AZURE_AI_AGENT envOkMsg skEnvOk chatEnvOk 0
            { message := "hi", thread_id := none }).1
        { message := "hi", thread_id := none }).1 ≤ 1 := by decide

/-- Claim C8, amended: every request handled under the Azure AI Agent
backend constructs a fresh adapter and re-runs the locate-or-create
initialization exactly once (the execution count grows by one per
request; by zero under the other backends); within one adapter instance
process_message never reassigns the agent handle. -/
theorem C8_amended (bt : BackendType) (env : AgentEnv) (sk : SKEnv) (chat : ChatEnv)
    (n : Nat) (req : PizzaRequest) :
    (processPizzaRequest bt env sk chat n req).1
      = n + (if bt = BackendType.AZURE_AI_AGENT then 1 else 0)
    ∧ ∀ (st : AgentState) (m : String) (t : Option String),
        (PizzaAgent.processMessage env st m t).state.agent = st.agent := by
  constructor
  · cases bt with
    | AZURE_AI_AGENT =>
      cases h : PizzaAgent.initializeAgent env with
      | error e =>
        simp [processPizzaRequest, PizzaService.mkService, PizzaService.selectAdapter,
              PizzaAgent.mkAgent, Except.map, h]
      | ok a =>
        simp [processPizzaRequest, PizzaService.mkService, PizzaService.selectAdapter,
              PizzaAgent.mkAgent, Except.map, h]
    | SEMANTIC_KERNEL =>
      simp [processPizzaRequest, PizzaService.mkService, PizzaService.selectAdapter]
    | SEMANTIC_KERNEL_AGENT =>
      simp [processPizzaRequest, PizzaService.mkService, PizzaService.selectAdapter]
  · intro st m t
    cases t with
    | some tid =>
      cases h : env.listMessages tid with
      | error e => simp only [PizzaAgent.processMessage, h]
      | ok page =>
        simp only [PizzaAgent.processMessage, h]
        exact runThread_state_agent env st m tid _
    | none =>
      cases h : env.createThread with
      | error e => simp only [PizzaAgent.processMessage, h]
      | ok tid =>
        simp only [PizzaAgent.processMessage, h]
        exact runThread_state_agent env st m tid _

/-- Claim C9: every result of the Stateless-Chat adapter has no
message_id key (and no thread_id key), and its conversation_id field is
exactly the pass-through of the input reference, never a minted
value. -/
theorem C9_stateless_refs (env : ChatEnv) (m : String) (cid : Option String) :
    getField (PizzaChatSK.processMessage env m cid) "message_id" = none
    ∧ getField (PizzaChatSK.processMessage env m cid) "thread_id" = none
    ∧ getField (PizzaChatSK.processMessage env m cid) "conversation_id" = some cid := by
  unfold PizzaChatSK.processMessage
  cases env.getChatMessageContent [("system", PizzaChatSK.systemPrompt), ("user", m)] with
  | ok c => exact ⟨rfl, rfl, rfl⟩
  | error e => exact ⟨rfl, rfl, rfl⟩

/-- Claim C10: with BACKEND_TYPE unset the settings backend defaults to
SEMANTIC_KERNEL_AGENT, whose selected adapter is PizzaAgentSK — not the
Azure AI Agent adapter, although the declared Field default of the
Settings model is AZURE_AI_AGENT, which would select PizzaAgent. -/
theorem C10_default_backend :
    settingsBackendType none = Except.ok BackendType.SEMANTIC_KERNEL_AGENT
    ∧ PizzaService.selectAdapter BackendType.SEMANTIC_KERNEL_AGENT = AdapterKind.pizzaAgentSK
    ∧ Settings.backendTypeFieldDefault = BackendType.AZURE_AI_AGENT
    ∧ PizzaService.selectAdapter Settings.backendTypeFieldDefault = AdapterKind.pizzaAgent
    ∧ AdapterKind.pizzaAgentSK ≠ AdapterKind.pizzaAgent :=
  ⟨rfl, rfl, rfl, rfl, by decide⟩
